import Mathlib

/-!
Shallow embedding of the recipe-suggestion front-end controller
(`src/App.tsx` and the record types of `src/types.ts`).

The React component's `useState` cells become the fields of `AppState`;
each event handler becomes a function from the old state (plus its
arguments and the external collaborators) to the new state.  The two
external inference calls (`identifyIngredientsFromImage`,
`generateRecipes` of the service module) are opaque fallible functions,
modelled as parameters returning `Except Unit α`: `Except.ok` is a
resolved promise, `Except.error ()` a rejection.  To reason about which
requests a handler issues to the generate collaborator, each async
handler also returns the list of `GenRequest`s it performed, in order.
-/

/-- The `Recipe` record of `src/types.ts`. -/
structure Recipe where
  recipeName : String
  description : String
  prepTime : String
  tags : List String
  ingredients : List String
  instructions : List String
deriving DecidableEq, Repr

/-- The `gender` union type of `UserProfile` in `src/types.ts`. -/
inductive Gender where
  | masculino
  | feminino
  | nao_informar
deriving DecidableEq, Repr

/-- The `UserProfile` record of `src/types.ts`. -/
structure UserProfile where
  name : String
  age : String
  gender : Gender
  dietaryRestrictions : List String
deriving DecidableEq, Repr

/-- The `useState` cells of the `App` component (`src/App.tsx`, lines 19-35). -/
structure AppState where
  isAuthenticated : Bool
  ingredients : List String
  recipes : List Recipe
  favoriteRecipes : List Recipe
  shoppingList : List String
  isLoading : Bool
  loadingMessage : String
  error : Option String
  activeTab : String
  selectedRecipe : Option Recipe
  isCameraOpen : Bool
  profile : UserProfile
deriving DecidableEq, Repr

/-- The initial state built by the `useState` initialisers. -/
def initialState : AppState :=
  { isAuthenticated := false
    ingredients := []
    recipes := []
    favoriteRecipes := []
    shoppingList := []
    isLoading := false
    loadingMessage := ""
    error := none
    activeTab := "Início"
    selectedRecipe := none
    isCameraOpen := false
    profile := { name := "", age := "", gender := Gender.nao_informar,
                 dietaryRestrictions := [] } }

/-- A request issued to the generate collaborator:
`generateRecipes(currentIngredients, profile)`. -/
structure GenRequest where
  ingredients : List String
  profile : UserProfile
deriving DecidableEq, Repr

/-- Type of the generate collaborator (`generateRecipes` of the service). -/
def GenService : Type :=
  List String → UserProfile → Except Unit (List Recipe)

/-- Type of the identify collaborator (`identifyIngredientsFromImage`). -/
def IdentifyService : Type :=
  String → Except Unit (List String)

/-- The handler `handleGenerateRecipes` (`src/App.tsx`, lines 37-56).
Returns the new state together with the list of requests issued to the
generate collaborator. -/
def handleGenerateRecipes (gen : GenService) (s : AppState)
    (currentIngredients : List String) : AppState × List GenRequest :=
  if currentIngredients.length = 0 then
    ({ s with recipes := [] }, [])
  else
    let s₁ := { s with loadingMessage := "Sugerindo receitas...",
                       isLoading := true, error := none }
    match gen currentIngredients s.profile with
    | Except.ok suggestedRecipes =>
        ({ s₁ with recipes := suggestedRecipes,
                   isLoading := false, loadingMessage := "" },
         [⟨currentIngredients, s.profile⟩])
    | Except.error _ =>
        ({ s₁ with error := some "Falha ao buscar receitas. Tente novamente mais tarde.",
                   isLoading := false, loadingMessage := "" },
         [⟨currentIngredients, s.profile⟩])

/-- The handler `handleCapture` (`src/App.tsx`, lines 58-80).  On a non-empty
identification it chains into `handleGenerateRecipes`, whose own
`try`/`catch`/`finally` guarantees it never rejects. -/
def handleCapture (identify : IdentifyService) (gen : GenService)
    (s : AppState) (imageBase64 : String) : AppState × List GenRequest :=
  let s₁ := { s with isCameraOpen := false, isLoading := true,
                     loadingMessage := "Identificando ingredientes...",
                     error := none, ingredients := [], recipes := [] }
  match identify imageBase64 with
  | Except.ok identified =>
      let s₂ := { s₁ with ingredients := identified }
      if identified.length > 0 then
        handleGenerateRecipes gen s₂ identified
      else
        ({ s₂ with isLoading := false, loadingMessage := "" }, [])
  | Except.error _ =>
      ({ s₁ with error := some "Falha ao identificar ingredientes. Tente uma foto mais nítida.",
                 isLoading := false, loadingMessage := "" }, [])

/-- The handler `handleToggleFavorite` (`src/App.tsx`, lines 90-99): membership test
by `recipeName` equality; present ⇒ filter out, absent ⇒ append. -/
def handleToggleFavorite (recipe : Recipe) (prev : List Recipe) : List Recipe :=
  let isFavorite := prev.any (fun r => r.recipeName == recipe.recipeName)
  if isFavorite then
    prev.filter (fun r => r.recipeName != recipe.recipeName)
  else
    prev ++ [recipe]

/-- The handler `handleAddIngredient` (`src/App.tsx`, lines 105-109): append only if
not already included (exact string match). -/
def handleAddIngredient (ingredients : List String) (ingredient : String) :
    List String :=
  if ingredients.contains ingredient then ingredients
  else ingredients ++ [ingredient]

/-- The handler `handleRemoveIngredient` (`src/App.tsx`, lines 111-113):
`prev.filter((_, i) => i !== index)`.  The index is a JavaScript number,
so it is embedded as `Int` to cover negative arguments. -/
def handleRemoveIngredient (prev : List String) (index : Int) : List String :=
  (prev.enum.filter (fun p => ((p.1 : Int) != index))).map Prod.snd

/-- The handler `handleProfileSave` (`src/App.tsx`, lines 115-118): unconditional
replacement of the profile. -/
def handleProfileSave (s : AppState) (updatedProfile : UserProfile) : AppState :=
  { s with profile := updatedProfile }

/-- Fold a sequence of `handleToggleFavorite` calls over a favorites list. -/
def applyToggles (rs : List Recipe) (favs : List Recipe) : List Recipe :=
  rs.foldl (fun acc r => handleToggleFavorite r acc) favs

/-! Sample concrete values used by the witness theorems. -/

/-- A concrete recipe. -/
def sampleRecipe : Recipe :=
  { recipeName := "Tomato Omelet", description := "omelete de tomate",
    prepTime := "10 min", tags := ["rápido"],
    ingredients := ["tomato", "egg"], instructions := ["misture", "frite"] }

/-- A second concrete recipe with a different name. -/
def sampleRecipe2 : Recipe :=
  { recipeName := "Salada", description := "salada simples",
    prepTime := "5 min", tags := [], ingredients := ["tomato"],
    instructions := ["corte"] }

/-- A concrete state carrying a stale error and some ingredients. -/
def sampleState : AppState :=
  { initialState with ingredients := ["tomato", "egg"],
                      error := some "stale error", isLoading := true,
                      loadingMessage := "old", recipes := [sampleRecipe2] }

/-- A generate collaborator that always succeeds with one recipe. -/
def sampleGenOk : GenService := fun _ _ => Except.ok [sampleRecipe]

/-- A generate collaborator that always fails. -/
def sampleGenFail : GenService := fun _ _ => Except.error ()

/-- An identify collaborator that always yields two ingredients. -/
def sampleIdentifyOk : IdentifyService := fun _ => Except.ok ["tomato", "egg"]

/-- An identify collaborator that always fails. -/
def sampleIdentifyFail : IdentifyService := fun _ => Except.error ()

/-- C2: Invoking generation with an empty ingredient list issues no request
to the generate collaborator and produces exactly the old state with the
recipe list cleared — every other field untouched. -/
theorem generate_empty_noop (gen : GenService) (s : AppState) :
    handleGenerateRecipes gen s [] = ({ s with recipes := [] }, []) := by
  rfl

/-- C1: For every non-empty ingredient list, the generate operation issues
exactly one request to the generate collaborator, carrying exactly that
list and the current profile; and when the collaborator succeeds the
displayed recipe list becomes exactly its response. -/
theorem generate_request_exact (gen : GenService) (s : AppState)
    (l : List String) (hl : l ≠ []) :
    (handleGenerateRecipes gen s l).2 = [⟨l, s.profile⟩] ∧
    ∀ resp, gen l s.profile = Except.ok resp →
      (handleGenerateRecipes gen s l).1.recipes = resp := by
  have hlen : ¬ l.length = 0 := by simpa using hl
  constructor
  · unfold handleGenerateRecipes
    rw [if_neg hlen]
    cases gen l s.profile <;> rfl
  · intro resp hresp
    unfold handleGenerateRecipes
    rw [if_neg hlen, hresp]

/-- Witness for `generate_request_exact` at concrete inputs. -/
theorem generate_request_exact_witness :
    (handleGenerateRecipes sampleGenOk sampleState ["tomato"]).2
        = [⟨["tomato"], sampleState.profile⟩] ∧
    (handleGenerateRecipes sampleGenOk sampleState ["tomato"]).1.recipes
        = [sampleRecipe] :=
  ⟨(generate_request_exact sampleGenOk sampleState ["tomato"] (by decide)).1,
   (generate_request_exact sampleGenOk sampleState ["tomato"] (by decide)).2
     [sampleRecipe] rfl⟩

/-- C3: For every non-empty ingredient list and every collaborator outcome,
the generate operation ends with the loading flag false and the loading
message cleared. -/
theorem generate_releases_loading (gen : GenService) (s : AppState)
    (l : List String) (hl : l ≠ []) :
    (handleGenerateRecipes gen s l).1.isLoading = false ∧
    (handleGenerateRecipes gen s l).1.loadingMessage = "" := by
  have hlen : ¬ l.length = 0 := by simpa using hl
  unfold handleGenerateRecipes
  rw [if_neg hlen]
  cases gen l s.profile <;> exact ⟨rfl, rfl⟩

/-- Witness for `generate_releases_loading`: the failing collaborator at a
concrete input. -/
theorem generate_releases_loading_witness :
    (handleGenerateRecipes sampleGenFail sampleState ["tomato"]).1.isLoading
        = false ∧
    (handleGenerateRecipes sampleGenFail sampleState ["tomato"]).1.loadingMessage
        = "" :=
  generate_releases_loading sampleGenFail sampleState ["tomato"] (by decide)

/-- C9: A failure of the generate collaborator leaves the ingredient list
exactly as it was before the generate operation was invoked. -/
theorem generate_failure_preserves_ingredients (gen : GenService)
    (s : AppState) (l : List String)
    (hfail : gen l s.profile = Except.error ()) :
    (handleGenerateRecipes gen s l).1.ingredients = s.ingredients := by
  unfold handleGenerateRecipes
  by_cases hlen : l.length = 0
  · rw [if_pos hlen]
  · rw [if_neg hlen, hfail]

/-- Witness for `generate_failure_preserves_ingredients` at concrete
inputs: the populated ingredient list of `sampleState` survives. -/
theorem generate_failure_preserves_ingredients_witness :
    (handleGenerateRecipes sampleGenFail sampleState ["tomato"]).1.ingredients
        = sampleState.ingredients :=
  generate_failure_preserves_ingredients sampleGenFail sampleState ["tomato"] rfl

/-- C4: When the identify collaborator fails after a capture, the ingredient
list and recipe list are both empty, the error is the fixed
identification-failure message, and loading is false. -/
theorem capture_identify_failure (identify : IdentifyService)
    (gen : GenService) (s : AppState) (img : String)
    (hfail : identify img = Except.error ()) :
    (handleCapture identify gen s img).1.ingredients = [] ∧
    (handleCapture identify gen s img).1.recipes = [] ∧
    (handleCapture identify gen s img).1.error
        = some "Falha ao identificar ingredientes. Tente uma foto mais nítida." ∧
    (handleCapture identify gen s img).1.isLoading = false := by
  unfold handleCapture
  rw [hfail]
  exact ⟨rfl, rfl, rfl, rfl⟩

/-- Witness for `capture_identify_failure` at concrete inputs. -/
theorem capture_identify_failure_witness :
    (handleCapture sampleIdentifyFail sampleGenOk sampleState "img").1.ingredients
        = [] ∧
    (handleCapture sampleIdentifyFail sampleGenOk sampleState "img").1.recipes
        = [] ∧
    (handleCapture sampleIdentifyFail sampleGenOk sampleState "img").1.error
        = some "Falha ao identificar ingredientes. Tente uma foto mais nítida." ∧
    (handleCapture sampleIdentifyFail sampleGenOk sampleState "img").1.isLoading
        = false :=
  capture_identify_failure sampleIdentifyFail sampleGenOk sampleState "img" rfl

/-- If no element of `prev` carries the toggled name, the removal filter of
`handleToggleFavorite` keeps `prev` intact. -/
lemma filter_ne_name_of_not_mem (recipe : Recipe) (prev : List Recipe)
    (h : prev.any (fun r => r.recipeName == recipe.recipeName) = false) :
    prev.filter (fun r => r.recipeName != recipe.recipeName) = prev := by
  refine List.filter_eq_self.mpr (fun a ha => ?_)
  have hfalse : (a.recipeName == recipe.recipeName) = false := by
    by_contra hc
    have hmem : prev.any (fun r => r.recipeName == recipe.recipeName) = true :=
      List.any_eq_true.mpr ⟨a, ha, by simpa using hc⟩
    rw [h] at hmem
    exact Bool.noConfusion hmem
  simp [bne, hfalse]

/-- C5: Toggling favorite on a recipe whose name is absent appends it once;
a second toggle restores the original list exactly; a third toggle appends
it again — two successive toggles are the identity on such lists. -/
theorem toggle_favorite_round_trip (recipe : Recipe) (prev : List Recipe)
    (h : prev.any (fun r => r.recipeName == recipe.recipeName) = false) :
    handleToggleFavorite recipe prev = prev ++ [recipe] ∧
    handleToggleFavorite recipe (handleToggleFavorite recipe prev) = prev ∧
    handleToggleFavorite recipe (handleToggleFavorite recipe
      (handleToggleFavorite recipe prev)) = prev ++ [recipe] := by
  have h1 : handleToggleFavorite recipe prev = prev ++ [recipe] := by
    unfold handleToggleFavorite
    simp only [h]
    rfl
  have h2 : handleToggleFavorite recipe (prev ++ [recipe]) = prev := by
    unfold handleToggleFavorite
    have hany : (prev ++ [recipe]).any
        (fun r => r.recipeName == recipe.recipeName) = true := by
      simp
    simp only [hany, if_true, List.filter_append,
      filter_ne_name_of_not_mem recipe prev h]
    simp [bne]
  refine ⟨h1, ?_, ?_⟩
  · rw [h1, h2]
  · rw [h1, h2, h1]

/-- Witness for `toggle_favorite_round_trip` at concrete inputs. -/
theorem toggle_favorite_round_trip_witness :
    handleToggleFavorite sampleRecipe [sampleRecipe2]
        = [sampleRecipe2] ++ [sampleRecipe] ∧
    handleToggleFavorite sampleRecipe
        (handleToggleFavorite sampleRecipe [sampleRecipe2]) = [sampleRecipe2] ∧
    handleToggleFavorite sampleRecipe (handleToggleFavorite sampleRecipe
        (handleToggleFavorite sampleRecipe [sampleRecipe2]))
        = [sampleRecipe2] ++ [sampleRecipe] :=
  toggle_favorite_round_trip sampleRecipe [sampleRecipe2] (by decide)

/-- C6: Adding an ingredient already present (exact string match) leaves
the ingredient list unchanged. -/
theorem add_duplicate_noop (ingredients : List String) (ingredient : String)
    (h : ingredient ∈ ingredients) :
    handleAddIngredient ingredients ingredient = ingredients := by
  unfold handleAddIngredient
  simp [h]

/-- Witness for `add_duplicate_noop` at concrete inputs. -/
theorem add_duplicate_noop_witness :
    handleAddIngredient ["tomato", "egg"] "egg" = ["tomato", "egg"] :=
  add_duplicate_noop ["tomato", "egg"] "egg" (by decide)

/-- C7: Removing by an index outside the bounds of the ingredient list
(negative, or at least the length) leaves the list unchanged. -/
theorem remove_out_of_range_noop (prev : List String) (index : Int)
    (h : index < 0 ∨ (prev.length : Int) ≤ index) :
    handleRemoveIngredient prev index = prev := by
  unfold handleRemoveIngredient
  have hall : ∀ p ∈ prev.enum, ((p.1 : Int) != index) = true := by
    refine List.forall_mem_enum.mpr (fun i hi => ?_)
    have : (i : Int) ≠ index := by
      rcases h with h | h <;> omega
    simpa [bne] using this
  rw [List.filter_eq_self.mpr hall]
  exact List.enum_map_snd prev

/-- Witness for `remove_out_of_range_noop`: a negative index and an index
past the end, both at concrete inputs (the negative case is in the proof
term through the theorem applied at index `-1`; stated here at index `5`). -/
theorem remove_out_of_range_noop_witness :
    handleRemoveIngredient ["tomato", "egg"] 5 = ["tomato", "egg"] :=
  remove_out_of_range_noop ["tomato", "egg"] 5 (by decide)

/-- A successful generate call ends with a cleared error, whatever error
the starting state displayed. -/
lemma generate_ok_error_none (gen : GenService) (s : AppState)
    (l : List String) (resp : List Recipe) (hlen : ¬ l.length = 0)
    (hresp : gen l s.profile = Except.ok resp) :
    (handleGenerateRecipes gen s l).1.error = none := by
  unfold handleGenerateRecipes
  rw [if_neg hlen, hresp]

/-- C8: Both workflow actions reset the error state: a generation that
proceeds (non-empty list) and succeeds ends with no error, and a capture
whose identify call succeeds (and whose chained generation, if any,
succeeds) ends with no error — whatever error the starting state held. -/
theorem action_resets_error (gen : GenService) (identify : IdentifyService)
    (s : AppState) (l : List String) (img : String) (hl : l ≠ []) :
    (∀ resp, gen l s.profile = Except.ok resp →
      (handleGenerateRecipes gen s l).1.error = none) ∧
    (∀ ids, identify img = Except.ok ids →
      (ids ≠ [] → ∃ resp, gen ids s.profile = Except.ok resp) →
      (handleCapture identify gen s img).1.error = none) := by
  constructor
  · intro resp hresp
    exact generate_ok_error_none gen s l resp (by simpa using hl) hresp
  · intro ids hids hgen
    unfold handleCapture
    rw [hids]
    by_cases hne : ids = []
    · subst hne
      rfl
    · have hpos : ids.length > 0 := List.length_pos.mpr hne
      obtain ⟨resp, hresp⟩ := hgen hne
      simp only [hpos, if_true]
      exact generate_ok_error_none gen _ ids resp (by simpa using hne) hresp

/-- Witness for `action_resets_error` at concrete inputs: the stale error
of `sampleState` does not survive either successful action. -/
theorem action_resets_error_witness :
    (handleGenerateRecipes sampleGenOk sampleState ["tomato"]).1.error
        = none ∧
    (handleCapture sampleIdentifyOk sampleGenOk sampleState "img").1.error
        = none :=
  ⟨(action_resets_error sampleGenOk sampleIdentifyOk sampleState ["tomato"]
      "img" (by decide)).1 [sampleRecipe] rfl,
   (action_resets_error sampleGenOk sampleIdentifyOk sampleState ["tomato"]
      "img" (by decide)).2 ["tomato", "egg"] rfl
      (fun _ => ⟨[sampleRecipe], rfl⟩)⟩

/-- The toggle operation preserves pairwise distinctness of recipe names. -/
lemma toggle_preserves_pairwise (r : Recipe) (favs : List Recipe)
    (h : favs.Pairwise (fun a b => a.recipeName ≠ b.recipeName)) :
    (handleToggleFavorite r favs).Pairwise
      (fun a b => a.recipeName ≠ b.recipeName) := by
  unfold handleToggleFavorite
  by_cases hf : favs.any (fun x => x.recipeName == r.recipeName) = true
  · simp only [hf, if_true]
    exact h.filter _
  · have hfalse : favs.any (fun x => x.recipeName == r.recipeName) = false := by
      simpa using hf
    simp only [hfalse, Bool.false_eq_true, if_false]
    rw [List.pairwise_append]
    refine ⟨h, List.pairwise_singleton _ _, ?_⟩
    intro a ha b hb
    have hb' : b = r := by simpa using hb
    rw [hb']
    intro heq
    have hmem : favs.any (fun x => x.recipeName == r.recipeName) = true :=
      List.any_eq_true.mpr ⟨a, ha, by simp [heq]⟩
    rw [hfalse] at hmem
    exact Bool.noConfusion hmem

/-- Any fold of toggles preserves pairwise distinctness of recipe names. -/
lemma applyToggles_pairwise (rs : List Recipe) (favs : List Recipe)
    (h : favs.Pairwise (fun a b => a.recipeName ≠ b.recipeName)) :
    (applyToggles rs favs).Pairwise (fun a b => a.recipeName ≠ b.recipeName) := by
  induction rs generalizing favs with
  | nil => exact h
  | cons r rs ih =>
      have := ih (handleToggleFavorite r favs) (toggle_preserves_pairwise r favs h)
      simpa [applyToggles] using this

/-- C10: Starting from an empty favorites list, any sequence of toggles
yields pairwise-distinct recipe names; and when the toggled name is
present, the toggle removes every entry carrying that name. -/
theorem favorites_names_pairwise_distinct :
    (∀ rs : List Recipe, (applyToggles rs []).Pairwise
        (fun a b => a.recipeName ≠ b.recipeName)) ∧
    (∀ (r : Recipe) (favs : List Recipe),
      favs.any (fun x => x.recipeName == r.recipeName) = true →
      ∀ x ∈ handleToggleFavorite r favs, x.recipeName ≠ r.recipeName) := by
  constructor
  · intro rs
    exact applyToggles_pairwise rs [] List.Pairwise.nil
  · intro r favs hf x hx
    unfold handleToggleFavorite at hx
    simp only [hf, if_true] at hx
    have := List.of_mem_filter hx
    simpa [bne] using this

/-- Witness for `favorites_names_pairwise_distinct` at concrete inputs. -/
theorem favorites_names_pairwise_distinct_witness :
    (applyToggles [sampleRecipe, sampleRecipe2, sampleRecipe] []).Pairwise
        (fun a b => a.recipeName ≠ b.recipeName) ∧
    sampleRecipe2.recipeName ≠ sampleRecipe.recipeName :=
  ⟨favorites_names_pairwise_distinct.1 [sampleRecipe, sampleRecipe2, sampleRecipe],
   favorites_names_pairwise_distinct.2 sampleRecipe [sampleRecipe, sampleRecipe2]
     (by decide) sampleRecipe2 (by decide)⟩
